import Mathlib

/-!
Verification of the DataScribe EDA pipeline (`predict.py`).

The program reads a CSV into a pandas DataFrame, computes descriptive
statistics, and renders a fixed battery of chart pages into a single PDF.
This file shallowly embeds the functions of `predict.py` that the claims
touch: the data model is an ordered list of named, dtype-tagged columns
whose cells are either missing (`Option.none`, pandas NaN) or a value.

Modelling notes, tied to the concrete library semantics the source relies on:
* `df.describe(include=[np.number])` raises
  `ValueError: No objects to concatenate` when the frame has no
  numeric-dtype columns (pandas builds the description by concatenating the
  per-column descriptions and concatenates an empty list).  `compute_basic_stats`
  therefore returns `Option.none` in that case, `Option.some` rows otherwise.
  The eight real-valued statistics (mean, std, quartiles, ...) are
  abstracted away; each row keeps the column name, the non-missing count and
  the missing count, which are the fields the claims speak about.
* `ax.violinplot(data)` builds a `GaussianKDE`; matplotlib raises
  `ValueError` when the data has fewer than two elements (so in particular
  for an all-missing column after `dropna()`), and `numpy.linalg.inv`
  raises `LinAlgError` on the zero covariance matrix of constant data.
  `violin_ok` captures exactly these two failure conditions.
* `pandas.plotting.scatter_matrix(..., diagonal="kde")` calls
  `scipy.stats.gaussian_kde` on each diagonal, which fails in the same two
  situations; the whole grid is drawn before `pdf.savefig`, so a failure
  emits no page.
* The matplotlib `boxplot` (via `cbook.boxplot_stats`) and `hist` both accept
  empty data, and pandas series/frame plots only raise
  `TypeError: no numeric data to plot` when the plotted frame has no
  numeric-dtype *columns* (row count does not matter), so the bar, pie and
  line plots used here never raise on the inputs reachable in the pipeline.
* `PdfPages` is used as a context manager; its `__exit__` closes (flushes)
  the file even when a generator raises, so an aborted run still leaves a
  document holding the pages appended so far.  `analyze_to_pdf` returns the
  written pages (`Option.none` when the failure happens before `PdfPages`
  is even opened) together with the pending error.
* `str(x)` on a missing value renders as the literal string `"nan"`
  (`Series.astype(str)` maps NaN to `"nan"`); `cellStr` mirrors this.
  Rendering of ordinary values is abstracted by `toString`, which keeps the
  only property the claims use: distinct values stay distinct and a missing
  cell collides exactly with a value whose rendering is `"nan"`.
* `value_counts()` sorts by count descending; the order among tied counts
  is not specified by pandas, and no claim depends on it.  The embedding
  uses a deterministic insertion sort by count.
-/

namespace DataScribe

/-- Column dtypes that `pd.read_csv` can infer.  Only `int64` and `float64`
are numpy-numeric (`select_dtypes(include=[np.number])`); `bool` is not. -/
inductive Dtype
  | int64
  | float64
  | object
  | bool
  deriving DecidableEq, Repr

/-- A non-missing cell value: text or a number.  Numbers are abstracted as
integers; no claim involves real arithmetic on them. -/
inductive Val
  | str (s : String)
  | num (n : Int)
  deriving DecidableEq, Repr

/-- A cell: `Option.none` is the pandas missing value (NaN). -/
abbrev Cell := Option Val

/-- One named column of the DataFrame. -/
structure Column where
  name : String
  dtype : Dtype
  cells : List Cell
  deriving DecidableEq, Repr

/-- A DataFrame: an ordered list of columns (`df.columns` order). -/
abbrev DataFrame := List Column

/-- Membership of a dtype in `np.number`, as used by `select_dtypes`. -/
def isNumericDtype : Dtype → Bool
  | Dtype.int64 => true
  | Dtype.float64 => true
  | _ => false

/-- The `df[col].dtype == "object"` test of `detect_categoricals`. -/
def isObjectDtype : Dtype → Bool
  | Dtype.object => true
  | _ => false

/-- Models `df[col].dropna()`: the non-missing values, in order. -/
def dropna (c : Column) : List Val := c.cells.filterMap id

/-- Models `df[col].isna().sum()`: number of missing cells. -/
def countNa (c : Column) : Nat := c.cells.countP Option.isNone

/-- Models `df[col].nunique(dropna=True)`: number of distinct non-missing values. -/
def nunique (c : Column) : Nat := (dropna c).dedup.length

/-- Models `df.select_dtypes(include=[np.number])`: the numeric-dtype columns, in
original order. -/
def numericColumns (df : DataFrame) : List Column :=
  df.filter (fun c => isNumericDtype c.dtype)

/-- Models `df.select_dtypes(include=[np.number]).columns.tolist()`. -/
def numericColNames (df : DataFrame) : List String :=
  (numericColumns df).map Column.name

/-- Embeds `detect_categoricals(df, max_unique)` (predict.py:38-46): walk the
columns in order; object dtype, or at most `max_unique` distinct
non-missing values, makes a column categorical. -/
def detect_categoricals (df : DataFrame) (max_unique : Nat) : List String :=
  match df with
  | [] => []
  | c :: rest =>
    if isObjectDtype c.dtype then
      c.name :: detect_categoricals rest max_unique
    else if nunique c ≤ max_unique then
      c.name :: detect_categoricals rest max_unique
    else
      detect_categoricals rest max_unique

/-- One row of `df.describe(include=[np.number]).T` with the appended
`missing` column (predict.py:32-35).  The real-valued statistics are
abstracted away (see the header comment). -/
structure StatRow where
  name : String
  count : Nat
  missing : Nat
  deriving DecidableEq, Repr

/-- Embeds `compute_basic_stats(df)` (predict.py:32-35).  `Option.none` models the
`ValueError: No objects to concatenate` that `df.describe(include=[np.number])`
raises when the frame has no numeric-dtype columns. -/
def compute_basic_stats (df : DataFrame) : Option (List StatRow) :=
  if (numericColumns df).isEmpty then Option.none
  else Option.some ((numericColumns df).map
    (fun c => ⟨c.name, (dropna c).length, countNa c⟩))

/-- A page of the PDF report, tagged with the column it renders where the
source produces one page per column. -/
inductive Page
  | summary
  | statsTable (rowLabels : List String)
  | missingness
  | histogram (col : String)
  | catBar (col : String)
  | corrHeatmap
  | box (col : String)
  | violin (col : String)
  | density (col : String)
  | scatterMatrix
  | lineChart
  | pie (col : String)
  | notes
  deriving DecidableEq, Repr

/-- Embeds `save_stats_table` (predict.py:60-76): nothing when the table is empty,
otherwise one table page rendering `desc.head(12)` — only the first 12 rows. -/
def save_stats_table (desc : List StatRow) : List Page :=
  if desc.isEmpty then []
  else [Page.statsTable ((desc.take 12).map StatRow.name)]

/-- Models `str(x)` as applied by `Series.astype(str)`: a missing cell renders as
the literal `"nan"`. -/
def cellStr : Cell → String
  | Option.none => "nan"
  | Option.some (Val.str s) => s
  | Option.some (Val.num n) => toString n

/-- Models `df[col].astype(str)`: every cell, missing ones included, as a string. -/
def astypeStr (c : Column) : List String := c.cells.map cellStr

/-- Insert into a count-descending list, keeping it count-descending. -/
def insertByCount (p : String × Nat) : List (String × Nat) → List (String × Nat)
  | [] => [p]
  | q :: rest => if q.2 < p.2 then p :: q :: rest else q :: insertByCount p rest

/-- Models `Series.value_counts()`: each distinct string with its frequency,
sorted by count descending (tie order is unspecified in pandas; see the
header comment). -/
def value_counts (l : List String) : List (String × Nat) :=
  (l.dedup.map (fun s => (s, l.count s))).foldr insertByCount []

/-- The `counts` series of `plot_categorical_bars` (predict.py:109):
`df[col].astype(str).value_counts().head(15)`. -/
def catbarCounts (c : Column) : List (String × Nat) :=
  (value_counts (astypeStr c)).take 15

/-- The `counts` series of `plot_pie_charts` (predict.py:199):
`df[col].astype(str).value_counts().head(6)`. -/
def pieCounts (c : Column) : List (String × Nat) :=
  (value_counts (astypeStr c)).take 6

/-- Embeds `plot_missingness` (predict.py:81-90): always exactly one bar chart
page (`df.isna().sum()` is a numeric series, so the bar plot accepts it). -/
def plot_missingness (_df : DataFrame) : List Page := [Page.missingness]

/-- Column selection of `plot_histograms` (predict.py:94):
`df.select_dtypes(include=[np.number]).columns.tolist()[:12]`. -/
def histogramCols (df : DataFrame) : List String := (numericColNames df).take 12

/-- Embeds `plot_histograms` (predict.py:93-103): one histogram page per selected
column (`ax.hist` accepts empty data, so no column can fail). -/
def plot_histograms (df : DataFrame) : List Page :=
  (histogramCols df).map Page.histogram

/-- Column selection of `plot_categorical_bars` (predict.py:107):
`detect_categoricals(df)[:8]`. -/
def catbarCols (df : DataFrame) : List String := (detect_categoricals df 20).take 8

/-- Embeds `plot_categorical_bars` (predict.py:106-117): one bar chart page per
selected column, rendering `catbarCounts`. -/
def plot_categorical_bars (df : DataFrame) : List Page :=
  (catbarCols df).map Page.catBar

/-- Embeds `plot_correlation_heatmap` (predict.py:120-135): a single heatmap page
unless there are fewer than two numeric columns. -/
def plot_correlation_heatmap (df : DataFrame) : List Page :=
  if 2 ≤ (numericColumns df).length then [Page.corrHeatmap] else []

/-- Column selection of `plot_boxplots` (predict.py:139). -/
def boxCols (df : DataFrame) : List String := (numericColNames df).take 8

/-- Embeds `plot_boxplots` (predict.py:138-146): one box plot page per selected
column (`boxplot_stats` handles empty data explicitly, so none can fail). -/
def plot_boxplots (df : DataFrame) : List Page :=
  (boxCols df).map Page.box

/-- All elements of the list equal (zero sample variance). -/
def allEqualVals : List Val → Bool
  | [] => true
  | v :: vs => vs.all (fun w => w == v)

/-- Whether `ax.violinplot(df[col].dropna())` succeeds: the matplotlib
`GaussianKDE` needs at least two elements and a nonsingular (nonzero)
covariance. -/
def violin_ok (c : Column) : Bool :=
  2 ≤ (dropna c).length && !allEqualVals (dropna c)

/-- Column selection of `plot_violinplots` (predict.py:150). -/
def violinColumns (df : DataFrame) : List Column := (numericColumns df).take 6

/-- The per-column loop of `plot_violinplots`: pages until the first column
on which `ax.violinplot` raises, paired with the pending error. -/
def violinPages : List Column → List Page × Option String
  | [] => ([], Option.none)
  | c :: rest =>
    if violin_ok c then
      (Page.violin c.name :: (violinPages rest).1, (violinPages rest).2)
    else
      ([], Option.some "GaussianKDE error in ax.violinplot")

/-- Embeds `plot_violinplots` (predict.py:149-157). -/
def plot_violinplots (df : DataFrame) : List Page × Option String :=
  violinPages (violinColumns df)

/-- Column selection of `plot_density_plots` (predict.py:162). -/
def densityColumns (df : DataFrame) : List Column := (numericColumns df).take 8

/-- Embeds `plot_density_plots` (predict.py:160-174): one page per selected column,
explicitly skipping columns whose values are all missing (`if data.empty`). -/
def plot_density_plots (df : DataFrame) : List Page :=
  (densityColumns df).filterMap (fun c =>
    if (dropna c).isEmpty then Option.none else Option.some (Page.density c.name))

/-- Whether `scipy.stats.gaussian_kde` on the diagonal of the scatter
matrix succeeds for a column: same two conditions as `violin_ok`. -/
def scatter_ok (c : Column) : Bool :=
  2 ≤ (dropna c).length && !allEqualVals (dropna c)

/-- Column selection of `plot_scatter_matrix` (predict.py:178). -/
def scatterColumns (df : DataFrame) : List Column := (numericColumns df).take 5

/-- Embeds `plot_scatter_matrix` (predict.py:177-183): one grid page when at least
two columns are selected; the kde diagonal fails before the page is saved
when some selected column is degenerate. -/
def plot_scatter_matrix (df : DataFrame) : List Page × Option String :=
  if 1 < (scatterColumns df).length then
    if (scatterColumns df).all scatter_ok then ([Page.scatterMatrix], Option.none)
    else ([], Option.some "gaussian kde error in scatter matrix diagonal")
  else ([], Option.none)

/-- Column selection of `plot_line_charts` (predict.py:187). -/
def lineColumns (df : DataFrame) : List Column := (numericColumns df).take 6

/-- Embeds `plot_line_charts` (predict.py:186-193): a single page when any numeric
column exists (the plotted sub-frame keeps its numeric columns, so pandas
accepts it even with zero rows). -/
def plot_line_charts (df : DataFrame) : List Page :=
  if (lineColumns df).isEmpty then [] else [Page.lineChart]

/-- Column selection of `plot_pie_charts` (predict.py:197). -/
def pieCols (df : DataFrame) : List String := (detect_categoricals df 20).take 4

/-- Embeds `plot_pie_charts` (predict.py:196-205): one pie page per selected
column, rendering `pieCounts`. -/
def plot_pie_charts (df : DataFrame) : List Page :=
  (pieCols df).map Page.pie

/-- Outcome of one `analyze_to_pdf` run: the pages of the written PDF
(`Option.none` when the run fails before `PdfPages` opens, so no file
exists), and the pending exception, if any. -/
structure RunResult where
  written : Option (List Page)
  error : Option String
  deriving DecidableEq, Repr

/-- The pages appended before `plot_violinplots` runs (predict.py:230-243):
summary, statistics table, missingness, histograms, categorical bars,
correlation heatmap, box plots. -/
def pagesBeforeViolin (df : DataFrame) (desc : List StatRow) : List Page :=
  [Page.summary] ++ save_stats_table desc ++ plot_missingness df
    ++ plot_histograms df ++ plot_categorical_bars df
    ++ plot_correlation_heatmap df ++ plot_boxplots df

/-- Embeds `analyze_to_pdf` (predict.py:226-252).  `compute_basic_stats` runs
before `PdfPages` opens, so its failure leaves no file; a failure inside
the `with PdfPages(...)` block still flushes the pages appended so far
(the violin and scatter generators are the only fallible stages). -/
def analyze_to_pdf (df : DataFrame) : RunResult :=
  match compute_basic_stats df with
  | Option.none => ⟨Option.none, Option.some "ValueError: No objects to concatenate"⟩
  | Option.some desc =>
    match plot_violinplots df, plot_scatter_matrix df with
    | (vp, Option.some e), _ =>
      ⟨Option.some (pagesBeforeViolin df desc ++ vp), Option.some e⟩
    | (vp, Option.none), (sp, Option.some e) =>
      ⟨Option.some (pagesBeforeViolin df desc ++ vp ++ plot_density_plots df ++ sp),
        Option.some e⟩
    | (vp, Option.none), (sp, Option.none) =>
      ⟨Option.some (pagesBeforeViolin df desc ++ vp ++ plot_density_plots df ++ sp
          ++ plot_line_charts df ++ plot_pie_charts df ++ [Page.notes]),
        Option.none⟩

/-- The position of the kind of a page in the fixed page order of §4.5. -/
def pageRank : Page → Nat
  | Page.summary => 0
  | Page.statsTable _ => 1
  | Page.missingness => 2
  | Page.histogram _ => 3
  | Page.catBar _ => 4
  | Page.corrHeatmap => 5
  | Page.box _ => 6
  | Page.violin _ => 7
  | Page.density _ => 8
  | Page.scatterMatrix => 9
  | Page.lineChart => 10
  | Page.pie _ => 11
  | Page.notes => 12

/-- The pages are listed in nondecreasing kind order. -/
def RankSorted (ps : List Page) : Prop :=
  ps.Pairwise (fun a b => pageRank a ≤ pageRank b)

/-- Shorthand for a non-missing numeric cell. -/
def someNum (n : Int) : Cell := Option.some (Val.num n)

/-- Shorthand for a non-missing text cell. -/
def someStr (s : String) : Cell := Option.some (Val.str s)

/-- A dataset with a single text column and no numeric-dtype column. -/
def dfTextOnly : DataFrame :=
  [⟨ "name", Dtype.object, [someStr "x", someStr "y"]⟩]

/-- A dataset with one numeric column whose values are all missing. -/
def dfAllMissing : DataFrame :=
  [⟨ "x", Dtype.float64, [Option.none, Option.none]⟩]

/-- A dataset with two columns and zero rows, as loaded from a header-only
CSV (pandas infers object dtype for empty columns). -/
def dfZeroRows : DataFrame :=
  [⟨ "a", Dtype.object, []⟩, ⟨ "b", Dtype.object, []⟩]

/-- A dataset whose single numeric column is all-missing, driving the
pipeline into the violin-plot failure after several pages are written. -/
def dfPartialRun : DataFrame :=
  [⟨ "a", Dtype.float64, [Option.none, Option.none]⟩]

/-- The fifth of five low-cardinality numeric columns. -/
def colFive : Column := ⟨ "c5", Dtype.int64, [someNum 5]⟩

/-- Five numeric columns, each with a single distinct value. -/
def dfFive : DataFrame :=
  [⟨ "c1", Dtype.int64, [someNum 1]⟩, ⟨ "c2", Dtype.int64, [someNum 2]⟩,
   ⟨ "c3", Dtype.int64, [someNum 3]⟩, ⟨ "c4", Dtype.int64, [someNum 4]⟩,
   colFive]

/-- Number of non-missing cells whose string rendering is the literal
`"nan"` (they are indistinguishable from missing cells after `astype(str)`). -/
def nanLiteralCount (c : Column) : Nat :=
  c.cells.countP (fun x => x.isSome && cellStr x == "nan")

/-- A numeric column with exactly 20 distinct non-missing values: the tie
case of the `max_unique` threshold. -/
def colTie : Column :=
  ⟨ "t", Dtype.int64,
    [someNum 0, someNum 1, someNum 2, someNum 3, someNum 4, someNum 5,
     someNum 6, someNum 7, someNum 8, someNum 9, someNum 10, someNum 11,
     someNum 12, someNum 13, someNum 14, someNum 15, someNum 16, someNum 17,
     someNum 18, someNum 19]⟩

/-- A numeric column with 21 distinct non-missing values: above the
threshold, hence not categorical. -/
def colBig : Column :=
  ⟨ "big", Dtype.float64,
    [someNum 0, someNum 1, someNum 2, someNum 3, someNum 4, someNum 5,
     someNum 6, someNum 7, someNum 8, someNum 9, someNum 10, someNum 11,
     someNum 12, someNum 13, someNum 14, someNum 15, someNum 16, someNum 17,
     someNum 18, someNum 19, someNum 20]⟩

/-- Tie-threshold dataset for the classifier: one tie column, one
high-cardinality column, one text column. -/
def dfTie : DataFrame := [colTie, colBig, ⟨ "s", Dtype.object, [someStr "u"]⟩]

/-- The concrete scenario dataset of §8: `age` (numeric, no missing),
`city` (text), `score` (numeric, one missing). -/
def dfStats : DataFrame :=
  [⟨ "age", Dtype.int64, [someNum 30, someNum 41, someNum 30]⟩,
   ⟨ "city", Dtype.object, [someStr "p", someStr "q", someStr "p"]⟩,
   ⟨ "score", Dtype.float64, [someNum 7, Option.none, someNum 9]⟩]

/-- The statistics rows `compute_basic_stats` yields on `dfStats`. -/
def descStats : List StatRow := [⟨ "age", 3, 0⟩, ⟨ "score", 2, 1⟩]

/-- Thirteen numeric columns: one more than the 12 rows
`save_stats_table` renders. -/
def df13 : DataFrame :=
  [⟨ "n01", Dtype.int64, [someNum 1]⟩, ⟨ "n02", Dtype.int64, [someNum 2]⟩,
   ⟨ "n03", Dtype.int64, [someNum 3]⟩, ⟨ "n04", Dtype.int64, [someNum 4]⟩,
   ⟨ "n05", Dtype.int64, [someNum 5]⟩, ⟨ "n06", Dtype.int64, [someNum 6]⟩,
   ⟨ "n07", Dtype.int64, [someNum 7]⟩, ⟨ "n08", Dtype.int64, [someNum 8]⟩,
   ⟨ "n09", Dtype.int64, [someNum 9]⟩, ⟨ "n10", Dtype.int64, [someNum 10]⟩,
   ⟨ "n11", Dtype.int64, [someNum 11]⟩, ⟨ "n12", Dtype.int64, [someNum 12]⟩,
   ⟨ "n13", Dtype.int64, [someNum 13]⟩]

/-- The statistics rows `compute_basic_stats` yields on `df13`. -/
def desc13 : List StatRow :=
  [⟨ "n01", 1, 0⟩, ⟨ "n02", 1, 0⟩, ⟨ "n03", 1, 0⟩, ⟨ "n04", 1, 0⟩,
   ⟨ "n05", 1, 0⟩, ⟨ "n06", 1, 0⟩, ⟨ "n07", 1, 0⟩, ⟨ "n08", 1, 0⟩,
   ⟨ "n09", 1, 0⟩, ⟨ "n10", 1, 0⟩, ⟨ "n11", 1, 0⟩, ⟨ "n12", 1, 0⟩,
   ⟨ "n13", 1, 0⟩]

/-- A numeric column with two distinct values, eligible for both column
families. -/
def colBoth : Column := ⟨ "a", Dtype.int64, [someNum 1, someNum 2]⟩

/-- A one-column dataset whose column is both numeric and categorical. -/
def dfBoth : DataFrame := [colBoth]

/-- An object column with one missing cell and one text cell. -/
def colW : Column := ⟨ "x", Dtype.object, [Option.none, someStr "b"]⟩

/-- A dataset on which the whole pipeline completes without error. -/
def dfComplete : DataFrame := [⟨ "a", Dtype.float64, [someNum 1, someNum 2]⟩]

/-- The pages `analyze_to_pdf` writes for `dfComplete`. -/
def completePages : List Page :=
  [Page.summary, Page.statsTable ["a"], Page.missingness, Page.histogram "a",
   Page.catBar "a", Page.box "a", Page.violin "a", Page.density "a",
   Page.lineChart, Page.pie "a", Page.notes]

end DataScribe

namespace DataScribe

/-- C4: the claim says the statistics engine returns an empty table without
an error when no numeric-dtype column exists; in fact
`df.describe(include=[np.number])` raises
`ValueError: No objects to concatenate` on such a frame, which the embedding
records as `Option.none`.  The dead `if desc.empty` guard of
`save_stats_table` shows the empty table was the intended behavior. -/
theorem C4_no_numeric_stats_error :
    compute_basic_stats dfTextOnly = Option.none := by rfl

/-- C5: the claim says no visualization generator raises on degenerate
input, naming all-missing columns; in fact `plot_violinplots` calls
`ax.violinplot` on the empty dropna result of an all-missing numeric
column, and the matplotlib `GaussianKDE` raises `ValueError` there, so the
generator emits no page and propagates an exception instead of silently
skipping the column. -/
theorem C5_violin_raises_on_all_missing :
    plot_violinplots dfAllMissing =
      ([], Option.some "GaussianKDE error in ax.violinplot") := by rfl

/-- C6: the claim says a zero-row dataset still yields a complete document
with summary and notes pages; in fact every zero-row CSV loads with
object-dtype columns only, so `compute_basic_stats` raises before
`PdfPages` is even opened and no document is produced at all. -/
theorem C6_zero_rows_no_document :
    analyze_to_pdf dfZeroRows =
      ⟨Option.none, Option.some "ValueError: No objects to concatenate"⟩ := by rfl

/-- C1, counterexample: on a dataset whose numeric column is all-missing,
the violin-plot stage raises after seven pages are written; `PdfPages`
flushes them on exit, so the produced document ends with a box-plot page
and contains no closing notes page, contradicting the claimed order for
every input dataset. -/
theorem C1_counterexample :
    (analyze_to_pdf dfPartialRun).written =
      Option.some [Page.summary, Page.statsTable ["a"], Page.missingness,
        Page.histogram "a", Page.catBar "a", Page.box "a"]
    ∧ ((analyze_to_pdf dfPartialRun).written.getD []).getLast? =
        Option.some (Page.box "a")
    ∧ (analyze_to_pdf dfPartialRun).error.isSome = true := by
  refine ⟨rfl, rfl, rfl⟩

/-- Every name returned by the classifier is a column name of the frame. -/
theorem mem_names_of_mem_detect :
    ∀ {df : DataFrame} {m : Nat} {x : String},
      x ∈ detect_categoricals df m → x ∈ df.map Column.name := by
  intro df
  induction df with
  | nil => intro m x h; simp [detect_categoricals] at h
  | cons c rest ih =>
    intro m x h
    simp only [detect_categoricals] at h
    by_cases h1 : isObjectDtype c.dtype = true
    · simp only [h1, if_true] at h
      rcases List.mem_cons.1 h with h2 | h2
      · simp [h2]
      · simp [List.mem_cons, ih h2]
    · simp only [h1, if_false] at h
      by_cases h3 : nunique c ≤ m
      · simp only [if_pos h3] at h
        rcases List.mem_cons.1 h with h2 | h2
        · simp [h2]
        · simp [List.mem_cons, ih h2]
      · simp only [if_neg h3] at h
        simp [List.mem_cons, ih h]

/-- A column of the frame satisfying the categorical rule is classified
categorical (no distinctness of names needed in this direction). -/
theorem name_mem_detect :
    ∀ {df : DataFrame} {m : Nat} {c : Column}, c ∈ df →
      (isObjectDtype c.dtype = true ∨ nunique c ≤ m) →
      c.name ∈ detect_categoricals df m := by
  intro df
  induction df with
  | nil => intro m c h; cases h
  | cons c' rest ih =>
    intro m c hmem hc
    rcases List.mem_cons.1 hmem with rfl | h2
    · by_cases hobj : isObjectDtype c.dtype = true
      · simp [detect_categoricals, hobj]
      · rcases hc with h | h
        · exact absurd h hobj
        · simp [detect_categoricals, hobj, h]
    · have hx := ih h2 hc
      by_cases hobj : isObjectDtype c'.dtype = true
      · simp [detect_categoricals, hobj, List.mem_cons, hx]
      · by_cases hu : nunique c' ≤ m
        · simp [detect_categoricals, hobj, hu, List.mem_cons, hx]
        · simp [detect_categoricals, hobj, hu, hx]

/-- C2: a column is classified categorical iff it is text (object dtype)
or has at most `max_unique` distinct non-missing values; otherwise — and
only otherwise — it is left in the numeric bucket, so each column gets
exactly one of the two labels.  Names are assumed distinct (behavior on
duplicate column names is explicitly left open by the design). -/
theorem C2_classifier (df : DataFrame) (max_unique : Nat) (c : Column)
    (hmem : c ∈ df) (hnodup : (df.map Column.name).Nodup) :
    (c.name ∈ detect_categoricals df max_unique ↔
      (isObjectDtype c.dtype = true ∨ nunique c ≤ max_unique))
    ∧ (c.name ∉ detect_categoricals df max_unique ↔
      (isObjectDtype c.dtype = false ∧ max_unique < nunique c)) := by
  have main : ∀ df : DataFrame, c ∈ df → (df.map Column.name).Nodup →
      (c.name ∈ detect_categoricals df max_unique ↔
        (isObjectDtype c.dtype = true ∨ nunique c ≤ max_unique)) := by
    intro df
    induction df with
    | nil => intro hm _; cases hm
    | cons c' rest ih =>
      intro hm hnd
      have hnd1 : c'.name ∉ rest.map Column.name :=
        (List.nodup_cons.1 (List.map_cons Column.name c' rest ▸ hnd)).1
      have hnd2 : (rest.map Column.name).Nodup :=
        (List.nodup_cons.1 (List.map_cons Column.name c' rest ▸ hnd)).2
      rcases List.mem_cons.1 hm with he | h2
      · subst he
        by_cases hobj : isObjectDtype c.dtype = true
        · simp only [detect_categoricals, if_pos hobj]
          exact ⟨fun _ => Or.inl hobj, fun _ => List.mem_cons_self _ _⟩
        · by_cases hu : nunique c ≤ max_unique
          · simp only [detect_categoricals, if_neg hobj, if_pos hu]
            exact ⟨fun _ => Or.inr hu, fun _ => List.mem_cons_self _ _⟩
          · simp only [detect_categoricals, if_neg hobj, if_neg hu]
            constructor
            · intro h
              exact absurd (mem_names_of_mem_detect h) hnd1
            · rintro (h | h)
              · exact absurd h hobj
              · exact absurd h hu
      · have hne : c.name ≠ c'.name := by
          intro he
          exact hnd1 (he ▸ List.mem_map_of_mem Column.name h2)
        have ihx := ih h2 hnd2
        by_cases hobj : isObjectDtype c'.dtype = true
        · simp only [detect_categoricals, if_pos hobj, List.mem_cons]
          rw [← ihx]
          exact ⟨fun h => h.resolve_left hne, fun h => Or.inr h⟩
        · by_cases hu : nunique c' ≤ max_unique
          · simp only [detect_categoricals, if_neg hobj, if_pos hu, List.mem_cons]
            rw [← ihx]
            exact ⟨fun h => h.resolve_left hne, fun h => Or.inr h⟩
          · simp only [detect_categoricals, if_neg hobj, if_neg hu]
            exact ihx
  have hmain := main df hmem hnodup
  refine ⟨hmain, ?_⟩
  rw [hmain, not_or]
  constructor
  · rintro ⟨h1, h2⟩
    refine ⟨?_, not_le.1 h2⟩
    cases hx : isObjectDtype c.dtype
    · rfl
    · exact absurd hx h1
  · rintro ⟨h1, h2⟩
    constructor
    · intro hx
      rw [h1] at hx
      cases hx
    · exact not_le.2 h2

/-- C2, witness: in `dfTie` with the default threshold 20, the numeric
column with exactly 20 distinct values is classified categorical (ties go
to categorical), and the 21-distinct-value column is not. -/
theorem C2_witness :
    nunique colTie = 20 ∧ colTie.name ∈ detect_categoricals dfTie 20
    ∧ nunique colBig = 21 ∧ colBig.name ∉ detect_categoricals dfTie 20 := by
  have ht := C2_classifier dfTie 20 colTie (by decide) (by decide)
  have hb := C2_classifier dfTie 20 colBig (by decide) (by decide)
  refine ⟨by decide, ht.1.2 (Or.inr (by decide)), by decide, hb.2.2 ⟨by decide, by decide⟩⟩

/-- A `Forall₂` between a mapped list and the list itself. -/
theorem forall₂_map_self {α β : Type} {R : β → α → Prop} (g : α → β)
    (h : ∀ a, R (g a) a) : ∀ l : List α, List.Forall₂ R (l.map g) l := by
  intro l
  induction l with
  | nil => exact List.Forall₂.nil
  | cons x xs ih => exact List.Forall₂.cons (h x) ih

/-- Unfolding of a successful `compute_basic_stats` run. -/
theorem compute_basic_stats_some {df : DataFrame} {desc : List StatRow}
    (h : compute_basic_stats df = Option.some desc) :
    desc = (numericColumns df).map
      (fun c => (⟨c.name, (dropna c).length, countNa c⟩ : StatRow)) := by
  unfold compute_basic_stats at h
  split at h
  · cases h
  · exact (Option.some.inj h).symm

/-- C3: whenever the statistics engine produces a table, it has exactly one
row per numeric-dtype column, in original column order, and the
missing count of each row is the number of missing cells of that column. -/
theorem C3_stats_rows (df : DataFrame) (desc : List StatRow)
    (h : compute_basic_stats df = Option.some desc) :
    desc.map StatRow.name = (numericColumns df).map Column.name
    ∧ List.Forall₂ (fun (r : StatRow) (c : Column) =>
        r.name = c.name ∧ r.missing = countNa c) desc (numericColumns df) := by
  have hd := compute_basic_stats_some h
  subst hd
  constructor
  · simp [List.map_map, Function.comp]
  · exact forall₂_map_self _ (fun c => ⟨rfl, rfl⟩) _

/-- C3, witness: on the §8 scenario dataset the table has exactly the rows
`age` and `score`, with missing counts 0 and 1. -/
theorem C3_witness :
    compute_basic_stats dfStats = Option.some descStats
    ∧ descStats.map StatRow.name = (numericColumns dfStats).map Column.name
    ∧ List.Forall₂ (fun (r : StatRow) (c : Column) =>
        r.name = c.name ∧ r.missing = countNa c) descStats (numericColumns dfStats) :=
  ⟨rfl, (C3_stats_rows dfStats descStats rfl).1, (C3_stats_rows dfStats descStats rfl).2⟩

/-- Taking `n` elements yields a prefix. -/
theorem take_isPrefix {α : Type} (n : Nat) (l : List α) : l.take n <+: l :=
  ⟨l.drop n, List.take_append_drop n l⟩

/-- The classifier output is an order-preserving sublist of the column
names. -/
theorem detect_sublist_names (df : DataFrame) (m : Nat) :
    List.Sublist (detect_categoricals df m) (df.map Column.name) := by
  induction df with
  | nil => simp [detect_categoricals]
  | cons c rest ih =>
    rw [List.map_cons]
    by_cases hobj : isObjectDtype c.dtype = true
    · simpa only [detect_categoricals, if_pos hobj] using List.Sublist.cons₂ c.name ih
    · by_cases hu : nunique c ≤ m
      · simpa only [detect_categoricals, if_neg hobj, if_pos hu] using
          List.Sublist.cons₂ c.name ih
      · simpa only [detect_categoricals, if_neg hobj, if_neg hu] using
          List.Sublist.cons c.name ih

/-- The numeric column names are an order-preserving sublist of the column
names. -/
theorem numeric_sublist_names (df : DataFrame) :
    List.Sublist (numericColNames df) (df.map Column.name) :=
  List.Sublist.map Column.name (List.filter_sublist df)

/-- C7: each bounded generator selects exactly the first `k` of its
eligible columns — the selection is a prefix of the eligible list of
length `min k (number of eligible columns)`, and eligibility preserves the
original column order of the dataset (both eligible lists are order-preserving
sublists of `df.columns`). -/
theorem C7_first_k_selection (df : DataFrame) :
    (histogramCols df <+: numericColNames df
      ∧ (histogramCols df).length = min 12 (numericColNames df).length)
    ∧ (catbarCols df <+: detect_categoricals df 20
      ∧ (catbarCols df).length = min 8 (detect_categoricals df 20).length)
    ∧ (boxCols df <+: numericColNames df
      ∧ (boxCols df).length = min 8 (numericColNames df).length)
    ∧ (violinColumns df <+: numericColumns df
      ∧ (violinColumns df).length = min 6 (numericColumns df).length)
    ∧ (densityColumns df <+: numericColumns df
      ∧ (densityColumns df).length = min 8 (numericColumns df).length)
    ∧ (scatterColumns df <+: numericColumns df
      ∧ (scatterColumns df).length = min 5 (numericColumns df).length)
    ∧ (lineColumns df <+: numericColumns df
      ∧ (lineColumns df).length = min 6 (numericColumns df).length)
    ∧ (pieCols df <+: detect_categoricals df 20
      ∧ (pieCols df).length = min 4 (detect_categoricals df 20).length)
    ∧ List.Sublist (numericColNames df) (df.map Column.name)
    ∧ List.Sublist (detect_categoricals df 20) (df.map Column.name) :=
  ⟨⟨take_isPrefix 12 _, List.length_take 12 _⟩,
   ⟨take_isPrefix 8 _, List.length_take 8 _⟩,
   ⟨take_isPrefix 8 _, List.length_take 8 _⟩,
   ⟨take_isPrefix 6 _, List.length_take 6 _⟩,
   ⟨take_isPrefix 8 _, List.length_take 8 _⟩,
   ⟨take_isPrefix 5 _, List.length_take 5 _⟩,
   ⟨take_isPrefix 6 _, List.length_take 6 _⟩,
   ⟨take_isPrefix 4 _, List.length_take 4 _⟩,
   numeric_sublist_names df, detect_sublist_names df 20⟩

/-- C8: when the statistics table has more than 12 rows, the rendered page
shows exactly the first 12 — the rows of the first 12 numeric columns —
and the remaining rows are absent from the page although they exist in the
computed table. -/
theorem C8_stats_table_truncated (df : DataFrame) (desc : List StatRow)
    (h : compute_basic_stats df = Option.some desc) (h12 : 12 < desc.length) :
    save_stats_table desc = [Page.statsTable ((desc.take 12).map StatRow.name)]
    ∧ ((desc.take 12).map StatRow.name).length = 12
    ∧ (desc.take 12).map StatRow.name = ((numericColumns df).map Column.name).take 12
    ∧ (desc.take 12).map StatRow.name ≠ desc.map StatRow.name := by
  have hne : desc.isEmpty = false := by
    cases desc with
    | nil => simp at h12
    | cons a l => rfl
  have hlen : ((desc.take 12).map StatRow.name).length = 12 := by
    rw [List.length_map, List.length_take]
    omega
  refine ⟨?_, hlen, ?_, ?_⟩
  · simp [save_stats_table, hne]
  · have hd := compute_basic_stats_some h
    subst hd
    rw [← List.map_take, ← List.map_take, List.map_map]
    exact rfl
  · intro he
    have := congrArg List.length he
    rw [hlen, List.length_map] at this
    omega

/-- C8, witness: with 13 numeric columns the rendered statistics page holds
only the first 12 row labels. -/
theorem C8_witness :
    compute_basic_stats df13 = Option.some desc13
    ∧ 12 < desc13.length
    ∧ save_stats_table desc13 =
        [Page.statsTable ((desc13.take 12).map StatRow.name)]
    ∧ ((desc13.take 12).map StatRow.name).length = 12 :=
  ⟨rfl, by decide,
   (C8_stats_table_truncated df13 desc13 rfl (by decide)).1,
   (C8_stats_table_truncated df13 desc13 rfl (by decide)).2.1⟩

/-- C9, counterexample: a numeric column with at most 20 distinct values is
*eligible* for the categorical generators, but `plot_pie_charts` keeps only
the first 4 categorical columns, so the fifth such column is not selected
by the pie-chart generator, contradicting the claim as stated. -/
theorem C9_counterexample :
    colFive ∈ dfFive
    ∧ isNumericDtype colFive.dtype = true
    ∧ nunique colFive ≤ 20
    ∧ colFive.name ∈ numericColNames dfFive
    ∧ colFive.name ∉ pieCols dfFive := by decide

/-- C9, amended: a numeric-dtype column with at most 20 distinct
non-missing values is *eligible* for both the numeric-column generators and
the categorical-column generators, and is actually selected by a generator
whenever it lies within the first-k limit of that generator — so the same column
can produce both a histogram page and a categorical bar chart page in one
report. -/
theorem C9_amended (df : DataFrame) (c : Column) (hmem : c ∈ df)
    (hnum : isNumericDtype c.dtype = true) (hu : nunique c ≤ 20) :
    c.name ∈ numericColNames df
    ∧ c.name ∈ detect_categoricals df 20
    ∧ (c.name ∈ histogramCols df → Page.histogram c.name ∈ plot_histograms df)
    ∧ (c.name ∈ catbarCols df → Page.catBar c.name ∈ plot_categorical_bars df) := by
  refine ⟨?_, name_mem_detect hmem (Or.inr hu), ?_, ?_⟩
  · exact List.mem_map_of_mem Column.name (List.mem_filter.2 ⟨hmem, hnum⟩)
  · intro h
    exact List.mem_map_of_mem Page.histogram h
  · intro h
    exact List.mem_map_of_mem Page.catBar h

/-- C9, witness: in `dfBoth` the single numeric low-cardinality column
yields both a histogram page and a categorical bar chart page. -/
theorem C9_witness :
    colBoth ∈ dfBoth ∧ nunique colBoth ≤ 20
    ∧ Page.histogram colBoth.name ∈ plot_histograms dfBoth
    ∧ Page.catBar colBoth.name ∈ plot_categorical_bars dfBoth := by
  have h := C9_amended dfBoth colBoth (List.mem_cons_self _ _) (by decide) (by decide)
  exact ⟨List.mem_cons_self _ _, by decide, h.2.2.1 (by decide), h.2.2.2 (by decide)⟩

/-- Counting `"nan"` after `astype(str)` splits into the missing cells and
the cells holding a value that renders as `"nan"`. -/
theorem count_nan_cells :
    ∀ l : List Cell,
      (l.map cellStr).count "nan" =
        l.countP Option.isNone + l.countP (fun x => x.isSome && cellStr x == "nan") := by
  intro l
  induction l with
  | nil => rfl
  | cons x xs ih =>
    rw [List.map_cons, List.count_cons, List.countP_cons, List.countP_cons, ih]
    cases x with
    | none => simp [cellStr, Nat.add_right_comm]
    | some v =>
      by_cases hv : cellStr (Option.some v) = "nan"
      · simp [hv]
        omega
      · simp [hv]

/-- Membership is preserved by the count-descending insertion. -/
theorem mem_insertByCount {p q : String × Nat} :
    ∀ {l : List (String × Nat)}, q ∈ insertByCount p l ↔ q = p ∨ q ∈ l := by
  intro l
  induction l with
  | nil => simp [insertByCount]
  | cons r rest ih =>
    by_cases hr : r.2 < p.2
    · simp [insertByCount, hr, List.mem_cons]
    · simp only [insertByCount, if_neg hr, List.mem_cons, ih]
      tauto

/-- Membership in the sorted value-count list is membership in the raw
count list. -/
theorem mem_foldr_insertByCount {q : String × Nat} :
    ∀ {L : List (String × Nat)}, q ∈ L.foldr insertByCount [] ↔ q ∈ L := by
  intro L
  induction L with
  | nil => simp
  | cons p rest ih => simp [List.foldr_cons, mem_insertByCount, ih]

/-- Characterizes membership: `(s, n) ∈ value_counts l` exactly when `s` occurs in `l` with
frequency `n`. -/
theorem mem_value_counts {l : List String} {s : String} {n : Nat} :
    (s, n) ∈ value_counts l ↔ s ∈ l ∧ n = l.count s := by
  unfold value_counts
  rw [mem_foldr_insertByCount]
  constructor
  · intro h
    rcases List.mem_map.1 h with ⟨t, ht, he⟩
    have ht1 : t = s := congrArg Prod.fst he
    have ht2 : l.count t = n := congrArg Prod.snd he
    subst ht1
    exact ⟨List.mem_dedup.1 ht, ht2.symm⟩
  · rintro ⟨hs, rfl⟩
    exact List.mem_map_of_mem _ (List.mem_dedup.2 hs)

/-- C10: the categorical bar and pie generators count frequencies of the
stringified cells (`astype(str)`), so the missing cells are tallied under
the literal label `"nan"`: its frequency is the missing count plus the
count of genuine `"nan"`-rendering values, and whenever the column has a
missing entry, `"nan"` is one of the counted labels with that frequency. -/
theorem C10_nan_label (c : Column) :
    catbarCounts c = (value_counts (astypeStr c)).take 15
    ∧ pieCounts c = (value_counts (astypeStr c)).take 6
    ∧ (astypeStr c).count "nan" = countNa c + nanLiteralCount c
    ∧ (0 < countNa c →
        ("nan", (astypeStr c).count "nan") ∈ value_counts (astypeStr c)) := by
  refine ⟨rfl, rfl, count_nan_cells c.cells, ?_⟩
  intro h
  refine mem_value_counts.2 ⟨?_, rfl⟩
  rcases List.countP_pos_iff.1 h with ⟨x, hx, hnone⟩
  have hx0 : x = Option.none := Option.isNone_iff_eq_none.1 hnone
  subst hx0
  exact List.mem_map.2 ⟨Option.none, hx, rfl⟩

/-- C10, witness: a column with one missing cell shows the `"nan"` label
with count 1, and it even survives the top-k truncation of both the bar
and the pie chart. -/
theorem C10_witness :
    0 < countNa colW
    ∧ ("nan", (astypeStr colW).count "nan") ∈ value_counts (astypeStr colW)
    ∧ ("nan", 1) ∈ catbarCounts colW
    ∧ ("nan", 1) ∈ pieCounts colW :=
  ⟨by decide, (C10_nan_label colW).2.2.2 (by decide), by decide, by decide⟩

/-- Every statistics-table page has rank 1. -/
theorem rank_of_mem_stats {desc : List StatRow} {p : Page}
    (h : p ∈ save_stats_table desc) : pageRank p = 1 := by
  unfold save_stats_table at h
  split at h
  · cases h
  · rcases List.mem_singleton.1 h with rfl
    rfl

/-- Every missingness page has rank 2. -/
theorem rank_of_mem_missing {df : DataFrame} {p : Page}
    (h : p ∈ plot_missingness df) : pageRank p = 2 := by
  rcases List.mem_singleton.1 h with rfl
  rfl

/-- Every histogram page has rank 3. -/
theorem rank_of_mem_hist {df : DataFrame} {p : Page}
    (h : p ∈ plot_histograms df) : pageRank p = 3 := by
  rcases List.mem_map.1 h with ⟨x, -, rfl⟩
  rfl

/-- Every categorical-bar page has rank 4. -/
theorem rank_of_mem_catbar {df : DataFrame} {p : Page}
    (h : p ∈ plot_categorical_bars df) : pageRank p = 4 := by
  rcases List.mem_map.1 h with ⟨x, -, rfl⟩
  rfl

/-- Every correlation-heatmap page has rank 5. -/
theorem rank_of_mem_corr {df : DataFrame} {p : Page}
    (h : p ∈ plot_correlation_heatmap df) : pageRank p = 5 := by
  unfold plot_correlation_heatmap at h
  split at h
  · rcases List.mem_singleton.1 h with rfl
    rfl
  · cases h

/-- Every box-plot page has rank 6. -/
theorem rank_of_mem_box {df : DataFrame} {p : Page}
    (h : p ∈ plot_boxplots df) : pageRank p = 6 := by
  rcases List.mem_map.1 h with ⟨x, -, rfl⟩
  rfl

/-- Every violin page has rank 7, error or not. -/
theorem rank_of_mem_violin :
    ∀ {cs : List Column} {p : Page}, p ∈ (violinPages cs).1 → pageRank p = 7 := by
  intro cs
  induction cs with
  | nil => intro p h; cases h
  | cons c rest ih =>
    intro p h
    by_cases hc : violin_ok c = true
    · simp only [violinPages, if_pos hc] at h
      rcases List.mem_cons.1 h with rfl | h2
      · rfl
      · exact ih h2
    · simp only [violinPages, if_neg hc] at h
      cases h

/-- Every density page has rank 8. -/
theorem rank_of_mem_density {df : DataFrame} {p : Page}
    (h : p ∈ plot_density_plots df) : pageRank p = 8 := by
  rcases List.mem_filterMap.1 h with ⟨c, -, he⟩
  by_cases hc : (dropna c).isEmpty = true
  · rw [if_pos hc] at he
    cases he
  · rw [if_neg hc] at he
    rcases Option.some.inj he with rfl
    rfl

/-- Every scatter-matrix page has rank 9, error or not. -/
theorem rank_of_mem_scatter {df : DataFrame} {p : Page}
    (h : p ∈ (plot_scatter_matrix df).1) : pageRank p = 9 := by
  unfold plot_scatter_matrix at h
  by_cases h1 : 1 < (scatterColumns df).length
  · rw [if_pos h1] at h
    by_cases h2 : (scatterColumns df).all scatter_ok = true
    · rw [if_pos h2] at h
      rcases List.mem_singleton.1 h with rfl
      rfl
    · rw [if_neg h2] at h
      cases h
  · rw [if_neg h1] at h
    cases h

/-- Every line-chart page has rank 10. -/
theorem rank_of_mem_line {df : DataFrame} {p : Page}
    (h : p ∈ plot_line_charts df) : pageRank p = 10 := by
  unfold plot_line_charts at h
  split at h
  · cases h
  · rcases List.mem_singleton.1 h with rfl
    rfl

/-- Every pie page has rank 11. -/
theorem rank_of_mem_pie {df : DataFrame} {p : Page}
    (h : p ∈ plot_pie_charts df) : pageRank p = 11 := by
  rcases List.mem_map.1 h with ⟨x, -, rfl⟩
  rfl

/-- Prepending a block of constant-rank pages to a rank-sorted suffix whose
ranks dominate keeps the list rank-sorted. -/
theorem rankSorted_append_of {l t : List Page} {r : Nat}
    (hl : ∀ p ∈ l, pageRank p = r)
    (ht : RankSorted t) (htl : ∀ p ∈ t, r ≤ pageRank p) :
    RankSorted (l ++ t) ∧ ∀ p ∈ l ++ t, r ≤ pageRank p := by
  constructor
  · refine List.pairwise_append.2 ⟨?_, ht, ?_⟩
    · exact List.pairwise_of_forall_mem_list
        (fun a ha b hb => by rw [hl a ha, hl b hb])
    · intro a ha b hb
      rw [hl a ha]
      exact htl b hb
  · intro p hp
    rcases List.mem_append.1 hp with h | h
    · rw [hl p h]
    · exact htl p h

/-- The page list of a full (error-free shaped) run is rank-sorted. -/
theorem rankSorted_run (df : DataFrame) (desc : List StatRow) :
    RankSorted (pagesBeforeViolin df desc ++ (plot_violinplots df).1
      ++ plot_density_plots df ++ (plot_scatter_matrix df).1
      ++ plot_line_charts df ++ plot_pie_charts df ++ [Page.notes]) := by
  have s12 : RankSorted [Page.notes] ∧ ∀ p ∈ [Page.notes], 12 ≤ pageRank p := by
    constructor
    · simp [RankSorted]
    · intro p hp
      rcases List.mem_singleton.1 hp with rfl
      exact Nat.le_refl _
  have s11 := rankSorted_append_of (l := plot_pie_charts df)
    (fun p hp => rank_of_mem_pie hp) s12.1
    (fun p hp => Nat.le_trans (by omega) (s12.2 p hp))
  have s10 := rankSorted_append_of (l := plot_line_charts df)
    (fun p hp => rank_of_mem_line hp) s11.1
    (fun p hp => Nat.le_trans (by omega) (s11.2 p hp))
  have s9 := rankSorted_append_of (l := (plot_scatter_matrix df).1)
    (fun p hp => rank_of_mem_scatter hp) s10.1
    (fun p hp => Nat.le_trans (by omega) (s10.2 p hp))
  have s8 := rankSorted_append_of (l := plot_density_plots df)
    (fun p hp => rank_of_mem_density hp) s9.1
    (fun p hp => Nat.le_trans (by omega) (s9.2 p hp))
  have s7 := rankSorted_append_of (l := (plot_violinplots df).1)
    (fun p hp => rank_of_mem_violin hp) s8.1
    (fun p hp => Nat.le_trans (by omega) (s8.2 p hp))
  have s6 := rankSorted_append_of (l := plot_boxplots df)
    (fun p hp => rank_of_mem_box hp) s7.1
    (fun p hp => Nat.le_trans (by omega) (s7.2 p hp))
  have s5 := rankSorted_append_of (l := plot_correlation_heatmap df)
    (fun p hp => rank_of_mem_corr hp) s6.1
    (fun p hp => Nat.le_trans (by omega) (s6.2 p hp))
  have s4 := rankSorted_append_of (l := plot_categorical_bars df)
    (fun p hp => rank_of_mem_catbar hp) s5.1
    (fun p hp => Nat.le_trans (by omega) (s5.2 p hp))
  have s3 := rankSorted_append_of (l := plot_histograms df)
    (fun p hp => rank_of_mem_hist hp) s4.1
    (fun p hp => Nat.le_trans (by omega) (s4.2 p hp))
  have s2 := rankSorted_append_of (l := plot_missingness df)
    (fun p hp => rank_of_mem_missing hp) s3.1
    (fun p hp => Nat.le_trans (by omega) (s3.2 p hp))
  have s1 := rankSorted_append_of (l := save_stats_table desc)
    (fun p hp => rank_of_mem_stats hp) s2.1
    (fun p hp => Nat.le_trans (by omega) (s2.2 p hp))
  have s0 := rankSorted_append_of
    (l := [Page.summary]) (r := 0)
    (fun p hp => by rcases List.mem_singleton.1 hp with rfl; rfl) s1.1
    (fun p hp => Nat.le_trans (by omega) (s1.2 p hp))
  simpa only [pagesBeforeViolin, List.append_assoc] using s0.1

/-- C1, amended: on every dataset for which the pipeline completes without
error, the produced pages appear in exactly the fixed order — summary
first, then statistics table, missingness, histograms, categorical bars,
correlation heatmap, box plots, violin plots, density plots, scatter
matrix, line chart, pie charts, and the closing notes page last (a run
aborted by a generator error instead leaves a flushed document that is a
prefix of this order, without the notes page). -/
theorem C1_amended (df : DataFrame) (ps : List Page)
    (h : analyze_to_pdf df = ⟨Option.some ps, Option.none⟩) :
    RankSorted ps ∧ ps.head? = Option.some Page.summary
    ∧ ps.getLast? = Option.some Page.notes := by
  unfold analyze_to_pdf at h
  cases hcb : compute_basic_stats df with
  | none =>
    rw [hcb] at h
    injection h with h1 h2
    exact Option.noConfusion h1
  | some desc =>
    rw [hcb] at h
    rcases hv : plot_violinplots df with ⟨vp, ve⟩
    rw [hv] at h
    rcases hs : plot_scatter_matrix df with ⟨sp, se⟩
    rw [hs] at h
    cases ve with
    | some e =>
      injection h with h1 h2
      exact Option.noConfusion h2
    | none =>
      cases se with
      | some e =>
        injection h with h1 h2
        exact Option.noConfusion h2
      | none =>
        injection h with h1 h2
        have hps : ps = pagesBeforeViolin df desc ++ vp ++ plot_density_plots df
            ++ sp ++ plot_line_charts df ++ plot_pie_charts df ++ [Page.notes] :=
          (Option.some.inj h1).symm
        subst hps
        have hv1 : (plot_violinplots df).1 = vp := congrArg Prod.fst hv
        have hs1 : (plot_scatter_matrix df).1 = sp := congrArg Prod.fst hs
        refine ⟨?_, ?_, ?_⟩
        · rw [← hv1, ← hs1]
          exact rankSorted_run df desc
        · rfl
        · exact List.getLast?_concat _

/-- C1, witness: the pipeline completes on `dfComplete` and the resulting
eleven pages are rank-sorted, start with the summary and end with the
notes. -/
theorem C1_witness :
    analyze_to_pdf dfComplete = ⟨Option.some completePages, Option.none⟩
    ∧ RankSorted completePages
    ∧ completePages.head? = Option.some Page.summary
    ∧ completePages.getLast? = Option.some Page.notes := by
  have h := C1_amended dfComplete completePages (by decide)
  exact ⟨by decide, h.1, h.2.1, h.2.2⟩

end DataScribe
